import Mathlib

/-!
Verification development for the calendar manager
(`calendar_manager.py`).

The Python program drives a remote calendar service.  Its pure decision
logic — validation of time ranges, colour-policy lookups, recurrence-rule
serialization, the row loop of the CSV importer, the colour-reconciliation
loop and the credential state machine — is embedded shallowly below.

Modelling conventions:
* Parsed datetimes (`datetime.fromisoformat` results) are modelled as
  integers (`Instant`, seconds); `datetime.fromisoformat` itself is Python
  standard-library code, so it is passed in as an abstract
  `parse : String → Option Instant` (`none` models a `ValueError`), and
  `datetime.isoformat` as an abstract `iso : Instant → String`.
* Remote calls (`service.events().insert/update`, `calendarList().list`)
  are recorded in explicit call traces; the success or failure of each
  remote call is an oracle parameter (`insertOk`, `updateOk`), since the
  remote service is an external collaborator.
* Python dicts holding configuration (`calendars`, `color_map`,
  `event_templates`) are association lists with `.get`-style lookup.
-/

namespace CalendarManager

/-- A parsed datetime instant (seconds). `datetime` comparison on parsed
values is integer comparison of instants. -/
abbrev Instant := Int

/-- `d.get(k)` on a Python dict modelled as an association list. -/
def dictFind (d : List (String × String)) (k : String) : Option String :=
  (d.find? (fun p => p.1 == k)).map (fun p => p.2)

/-- `d.get(k, d0)` on a Python dict modelled as an association list. -/
def dictGet (d : List (String × String)) (k d0 : String) : String :=
  (dictFind d k).getD d0

/-- The fixed reminder block attached to every built event:
`{"useDefault": False, "overrides": [email 30, popup 10]}`. -/
structure Reminders where
  useDefault : Bool
  overrides : List (String × Nat)
deriving DecidableEq, Repr

def defaultReminders : Reminders :=
  { useDefault := false, overrides := [("email", 30), ("popup", 10)] }

/-- An event body as submitted to `service.events().insert`.  `startStr`
and `endStr` are the literal `dateTime` strings of the payload;
`colorId` is absent (`none`) for recurring events, which the source builds
without a colour. -/
structure EventPayload where
  summary : String
  startStr : String
  endStr : String
  colorId : Option String
  reminders : Reminders
  recurrence : Option String
deriving DecidableEq, Repr

/-- One entry of `service.calendarList().list()`: display name (`summary`),
stable `id`, and the optional `colorId` of the calendar itself. -/
structure CalEntry where
  summary : String
  id : String
  colorId : Option String
deriving DecidableEq, Repr

/-- `get_calendar_id`: linear scan of the calendar list for an exact
display-name match; first match wins; `None` when absent. -/
def get_calendar_id (cl : List CalEntry) (name : String) : Option String :=
  (cl.find? (fun c => c.summary == name)).map (fun c => c.id)

/-- `get_calendar_color_id`: scan the calendar list for the name; return the
calendar's own `colorId`, defaulting to `"1"` when unset or when the
calendar is not found. -/
def get_calendar_color_id (cl : List CalEntry) (name : String) : String :=
  match cl.find? (fun c => c.summary == name) with
  | some c => c.colorId.getD "1"
  | none => "1"

/-- The two-stage colour-policy lookup used by `create_event`
(lines 289–293) and `sync_event_colors` (lines 1179–1184):
`color_hex = calendars.get(name, "#236192")`;
`color_id = color_map.get(color_hex, "1")`. -/
def color_id_for (cals cmap : List (String × String)) (name : String) : String :=
  dictGet cmap (dictGet cals name "#236192") "1"

/-- Remote mutation calls issued by the event-creation paths. -/
inductive RemoteCall where
  | insert (calendarId : String) (body : EventPayload)
deriving DecidableEq, Repr

/-- Outcome of `create_event` as observable from its log/print behaviour. -/
inductive CreateResult where
  | calendarNotFound
  | invalidFormat
  | invalidRange
  | created
  | remoteError
deriving DecidableEq, Repr

/-- `create_event(calendar_name, summary, start_time, end_time)`:
resolve the calendar; parse both times (`ValueError` → `invalidFormat`);
reject `start >= end`; otherwise build the payload with the colour-policy
colour and the fixed reminders and issue exactly one insert. -/
def create_event (parse : String → Option Instant) (cl : List CalEntry)
    (cals cmap : List (String × String)) (insertOk : Bool)
    (calendar_name summary start_time end_time : String) :
    CreateResult × List RemoteCall :=
  match get_calendar_id cl calendar_name with
  | none => (.calendarNotFound, [])
  | some calendar_id =>
    match parse start_time, parse end_time with
    | some s, some e =>
      if s ≥ e then (.invalidRange, [])
      else
        let color_id := color_id_for cals cmap calendar_name
        let event : EventPayload :=
          { summary := summary, startStr := start_time, endStr := end_time,
            colorId := some color_id, reminders := defaultReminders,
            recurrence := none }
        ((if insertOk then CreateResult.created else CreateResult.remoteError),
         [RemoteCall.insert calendar_id event])
    | _, _ => (.invalidFormat, [])

/-- A named template from the `EVENT_TEMPLATES` configuration:
`summary` defaults to `"Untitled Event"`, `duration` (minutes) to `60`. -/
structure EventTemplate where
  summary : Option String
  duration : Option Int
deriving DecidableEq, Repr

/-- `add_event_using_template` (after the interactive template choice):
`end = start + timedelta(minutes=duration)`, then both endpoints are
serialized (`isoformat`) and handed to `create_event`, which re-parses and
re-validates them. -/
def add_event_using_template (parse : String → Option Instant)
    (iso : Instant → String) (cl : List CalEntry)
    (cals cmap : List (String × String)) (insertOk : Bool)
    (calendar_name : String) (template : EventTemplate) (start_dt : Instant) :
    CreateResult × List RemoteCall :=
  match get_calendar_id cl calendar_name with
  | none => (.calendarNotFound, [])
  | some _ =>
    let summary := template.summary.getD "Untitled Event"
    let duration := template.duration.getD 60
    let end_dt : Instant := start_dt + 60 * duration
    create_event parse cl cals cmap insertOk calendar_name summary
      (iso start_dt) (iso end_dt)

/-- The `frequency_mapping` dict of `add_recurring_event`. -/
def frequency_mapping : List (String × String) :=
  [("1", "DAILY"), ("2", "WEEKLY"), ("3", "MONTHLY"), ("4", "YEARLY")]

/-- Python `str.isdigit`: non-empty and all characters digits (stated on
the character list so that it evaluates in the kernel). -/
def pyIsdigit (s : String) : Bool :=
  !s.data.isEmpty && s.data.all Char.isDigit

/-- Numeric value of a digit string (the reading a provider gives
`COUNT=<n>`): used to state that a count is a positive integer. -/
def pyToNat (s : String) : Nat :=
  s.data.foldl (fun n c => n * 10 + (c.toNat - 48)) 0

/-- `end_date.replace('-', '')`: removing every occurrence of the
one-character pattern `-` is exactly filtering the character out. -/
def removeDashes (s : String) : String :=
  String.mk (s.data.filter (fun c => c != '-'))

/-- Outcome of `add_recurring_event`. -/
inductive RecurResult where
  | calendarNotFound
  | invalidFormat
  | invalidRange
  | invalidFrequency
  | invalidCount
  | invalidEndCondition
  | created
  | remoteError
deriving DecidableEq, Repr

/-- `add_recurring_event`: resolve the calendar, parse and range-check the
times, map the menu choice to a frequency, then serialize the recurrence
rule — `UNTIL={end_date.replace('-','')}T000000Z` for date termination
(the raw `end_date` input is not validated), `COUNT={count}` after an
`isdigit` check for count termination — and issue one insert. -/
def add_recurring_event (parse : String → Option Instant) (cl : List CalEntry)
    (insertOk : Bool)
    (calendar_name summary start_time end_time recurrence_choice
      end_condition end_date count : String) :
    RecurResult × List RemoteCall :=
  match get_calendar_id cl calendar_name with
  | none => (.calendarNotFound, [])
  | some calendar_id =>
    match parse start_time, parse end_time with
    | some s, some e =>
      if s ≥ e then (.invalidRange, [])
      else
        match dictFind frequency_mapping recurrence_choice with
        | none => (.invalidFrequency, [])
        | some frequency =>
          if end_condition = "d" then
            let recurrence_rule :=
              "RRULE:FREQ=" ++ frequency ++ ";UNTIL=" ++
                removeDashes end_date ++ "T000000Z"
            let event : EventPayload :=
              { summary := summary, startStr := start_time, endStr := end_time,
                colorId := none, reminders := defaultReminders,
                recurrence := some recurrence_rule }
            ((if insertOk then RecurResult.created else RecurResult.remoteError),
             [RemoteCall.insert calendar_id event])
          else if end_condition = "n" then
            if pyIsdigit count then
              let recurrence_rule := "RRULE:FREQ=" ++ frequency ++ ";COUNT=" ++ count
              let event : EventPayload :=
                { summary := summary, startStr := start_time, endStr := end_time,
                  colorId := none, reminders := defaultReminders,
                  recurrence := some recurrence_rule }
              ((if insertOk then RecurResult.created else RecurResult.remoteError),
               [RemoteCall.insert calendar_id event])
            else (.invalidCount, [])
          else (.invalidEndCondition, [])
    | _, _ => (.invalidFormat, [])

/-- One CSV data row, with the five required columns, fields already
`.strip()`ped; a blank field is the empty string. -/
structure ImportRow where
  summary : String
  startDate : String
  startTime : String
  endDate : String
  endTime : String
deriving DecidableEq, Repr

/-- Reasons a CSV row is skipped. -/
inductive RejectReason where
  | missingField
  | invalidFormat
  | invalidRange
deriving DecidableEq, Repr

/-- Fate of one CSV row inside the import loop. -/
inductive RowOutcome where
  | reject (reason : RejectReason)
  | inserted (body : EventPayload)
  | remoteFailed (body : EventPayload)
deriving DecidableEq, Repr

/-- The body of the `for row in reader` loop of `import_from_csv`:
blank-field check, then parse of `f"{date}T{time}"` for each endpoint
(`ValueError` → `invalidFormat`), then the `start >= end` check, then the
insert.  `insertOk` is the outcome of the remote insert; a failing insert
raises outside the per-row `except ValueError/KeyError` handlers. -/
def processRow (parse : String → Option Instant) (color_id : String)
    (insertOk : Bool) (row : ImportRow) : RowOutcome :=
  if row.summary == "" || row.startDate == "" || row.startTime == "" ||
      row.endDate == "" || row.endTime == "" then
    .reject .missingField
  else
    match parse (row.startDate ++ "T" ++ row.startTime),
          parse (row.endDate ++ "T" ++ row.endTime) with
    | some s, some e =>
      if s ≥ e then .reject .invalidRange
      else
        let body : EventPayload :=
          { summary := row.summary,
            startStr := row.startDate ++ "T" ++ row.startTime,
            endStr := row.endDate ++ "T" ++ row.endTime,
            colorId := some color_id, reminders := defaultReminders,
            recurrence := none }
        if insertOk then .inserted body else .remoteFailed body
    | _, _ => .reject .invalidFormat

/-- Remote calls issued by `import_from_csv`, in order. -/
inductive CsvCall where
  | getCalendarId (name : String)
  | getColorId (name : String)
  | insert (calendarId : String) (body : EventPayload)
deriving DecidableEq, Repr

def isGetCalendarIdCall : CsvCall → Bool
  | .getCalendarId _ => true
  | _ => false

def isGetColorIdCall : CsvCall → Bool
  | .getColorId _ => true
  | _ => false

/-- Result of the CSV import loop.  `aborted` records that an insert
raised an exception not handled per-row, which lands in the whole-import
`except Exception` handler and ends the loop; rows after that point are
neither accepted nor rejected. -/
structure ImportResult where
  accepted : List ImportRow
  rejected : List (ImportRow × RejectReason)
  aborted : Bool
  calls : List CsvCall
deriving DecidableEq, Repr

/-- The `for row in reader` loop of `import_from_csv`.  `k` counts insert
attempts so far; `insertOk k` is the outcome of the `k`-th attempt. -/
def importLoop (parse : String → Option Instant)
    (calendar_id color_id : String) (insertOk : Nat → Bool) :
    List ImportRow → Nat → ImportResult
  | [], _ => { accepted := [], rejected := [], aborted := false, calls := [] }
  | row :: rest, k =>
    match processRow parse color_id (insertOk k) row with
    | .reject reason =>
      let r := importLoop parse calendar_id color_id insertOk rest k
      { accepted := r.accepted, rejected := (row, reason) :: r.rejected,
        aborted := r.aborted, calls := r.calls }
    | .inserted body =>
      let r := importLoop parse calendar_id color_id insertOk rest (k + 1)
      { accepted := row :: r.accepted, rejected := r.rejected,
        aborted := r.aborted,
        calls := CsvCall.insert calendar_id body :: r.calls }
    | .remoteFailed body =>
      { accepted := [], rejected := [], aborted := true,
        calls := [CsvCall.insert calendar_id body] }

/-- `import_from_csv(calendar_name, csv_file)` after the file has been
read into `rows`: resolve the calendar once, resolve its colour once via
`get_calendar_color_id`, then run the row loop.  The second component is
the full remote-call trace. -/
def import_from_csv (parse : String → Option Instant) (cl : List CalEntry)
    (calendar_name : String) (rows : List ImportRow) (insertOk : Nat → Bool) :
    Option ImportResult × List CsvCall :=
  match get_calendar_id cl calendar_name with
  | none => (none, [CsvCall.getCalendarId calendar_name])
  | some calendar_id =>
    let color_id := get_calendar_color_id cl calendar_name
    let r := importLoop parse calendar_id color_id insertOk rows 0
    (some r,
     CsvCall.getCalendarId calendar_name ::
       CsvCall.getColorId calendar_name :: r.calls)

/-- An event as listed by `service.events().list`: identifier, summary,
optional `colorId`, and `rest` standing for every other payload field,
which the colour-sync loop never touches. -/
structure GEvent where
  id : String
  summary : String
  colorId : Option String
  rest : String
deriving DecidableEq, Repr

/-- Result of one `sync_event_colors` run: the remote event list
afterwards, the update calls made (original event, submitted body), and
the reported `updated_count` — `none` when an update raised and the
whole-operation `except` swallowed the loop before the summary line. -/
structure SyncResult where
  events : List GEvent
  calls : List (GEvent × GEvent)
  reported : Option Nat
deriving DecidableEq, Repr

/-- The `for event in events` loop of `sync_event_colors`.  `k` counts
update attempts, `cnt` is `updated_count` so far.  An event whose
`colorId` (possibly absent) differs from the target gets
`event["colorId"] = color_id` and a full-body update; a failing update
raises out of the loop. -/
def syncLoop (color_id : String) (updateOk : Nat → Bool) :
    List GEvent → Nat → Nat → SyncResult
  | [], _, cnt => { events := [], calls := [], reported := some cnt }
  | ev :: rest, k, cnt =>
    if ev.colorId == some color_id then
      let r := syncLoop color_id updateOk rest k cnt
      { events := ev :: r.events, calls := r.calls, reported := r.reported }
    else
      let body := { ev with colorId := some color_id }
      if updateOk k then
        let r := syncLoop color_id updateOk rest (k + 1) (cnt + 1)
        { events := body :: r.events, calls := (ev, body) :: r.calls,
          reported := r.reported }
      else
        { events := ev :: rest, calls := [(ev, body)], reported := none }

/-- `sync_event_colors(calendar_name)`: resolve the calendar, compute the
policy colour via the `calendars`/`color_map` lookups, then run the loop
over the listed events.  `none` when the calendar is not found. -/
def sync_event_colors (cl : List CalEntry) (cals cmap : List (String × String))
    (calendar_name : String) (events : List GEvent) (updateOk : Nat → Bool) :
    Option SyncResult :=
  match get_calendar_id cl calendar_name with
  | none => none
  | some _ =>
    let color_id := color_id_for cals cmap calendar_name
    some (syncLoop color_id updateOk events 0 0)

/-- The observable state of a stored Google credential:
whether a refresh token is present and whether `expiry` is past. -/
structure PyCreds where
  refresh_token : Bool
  expired : Bool
deriving DecidableEq, Repr

/-- `creds.valid` of google-auth: token present and not expired. -/
def credsValid (c : PyCreds) : Bool := !c.expired

/-- Externally visible steps of `authenticate_google_calendar`. -/
inductive AuthCall where
  | refreshCall
  | saveToken
  | runFlow
deriving DecidableEq, BEq, Repr

/-- Outcome of `authenticate_google_calendar`: a service built on valid
credentials, or the `SystemExit` raised when the OAuth flow fails. -/
inductive AuthOutcome where
  | service (c : PyCreds)
  | fatalExit
deriving DecidableEq, Repr

/-- `authenticate_google_calendar()`: load `token.json` (`stored`); if
expired with a refresh token, refresh once (`refreshOk`; a `RefreshError`
drops the credentials); if no valid credentials remain, run the OAuth flow
once (`flowOk`; failure raises `SystemExit`).  Every successful refresh or
flow saves `token.json`. -/
def authenticate_google_calendar (stored : Option PyCreds)
    (refreshOk flowOk : Bool) : AuthOutcome × List AuthCall :=
  let step1 : Option PyCreds × List AuthCall :=
    match stored with
    | none => (none, [])
    | some c =>
      if c.expired && c.refresh_token then
        if refreshOk then
          (some { c with expired := false }, [.refreshCall, .saveToken])
        else (none, [.refreshCall])
      else (some c, [])
  match step1.1 with
  | some c =>
    if credsValid c then (.service c, step1.2)
    else if flowOk then
      (.service { refresh_token := true, expired := false },
       step1.2 ++ [.runFlow, .saveToken])
    else (.fatalExit, step1.2 ++ [.runFlow])
  | none =>
    if flowOk then
      (.service { refresh_token := true, expired := false },
       step1.2 ++ [.runFlow, .saveToken])
    else (.fatalExit, step1.2 ++ [.runFlow])

/-- An event as handled by `update_event`: the selected event's fields,
with `startStr`/`endStr` the stored `dateTime` strings of its payload. -/
structure UEvent where
  id : String
  summary : String
  description : String
  startStr : String
  endStr : String
deriving DecidableEq, Repr

/-- `prompt_for_datetime` (lines 345–383): asks for year, month, day,
hour, minute, and on any `ValueError` retries itself; the only way it
returns is `datetime(year, month, day, hour, minute).isoformat()`.  Its
result is therefore always the isoformat rendering of some instant —
never the empty string, even though the `update_event` prompts say
"leave blank to keep current".  Modelled by that result: the validated
instant rendered through the abstract `iso`. -/
def prompt_for_datetime (iso : Instant → String) (entered : Instant) : String :=
  iso entered

/-- The build-and-validate core of `update_event` (steps 5–9), after an
event has been selected.  `start_time`/`end_time` are the strings returned
by `prompt_for_datetime` (lines 1058–1063); the `if start_time:` /
`if end_time:` truthiness guards (lines 1077–1080) and the
both-endpoints guard around the range check (line 1084) are kept exactly
as in the source, although `prompt_for_datetime` never produces the blank
string they test for.  Result: `some body` when the update is submitted
to the remote service with `body`, `none` when the range check rejects it
or a `ValueError` aborts (lines 1087–1099). -/
def update_event (parse : String → Option Instant) (selected : UEvent)
    (summary_input start_time end_time description_input : String) :
    Option UEvent :=
  let updated : UEvent :=
    { id := selected.id,
      summary := if summary_input = "" then selected.summary else summary_input,
      description :=
        if description_input = "" then selected.description
        else description_input,
      startStr := selected.startStr, endStr := selected.endStr }
  let updated :=
    if start_time = "" then updated
    else { updated with startStr := start_time }
  let updated :=
    if end_time = "" then updated
    else { updated with endStr := end_time }
  if start_time = "" ∨ end_time = "" then some updated
  else
    match parse start_time, parse end_time with
    | some s, some e => if s ≥ e then none else some updated
    | _, _ => none

/-- Grammar of section 6 of the specification, modelled from the spec:
`RRULE:FREQ={DAILY|WEEKLY|MONTHLY|YEARLY};UNTIL=<YYYYMMDD>T000000Z` or
`RRULE:FREQ=...;COUNT=<positive integer>`.  Used to compare the emitted
rule text of `add_recurring_event` against the specified grammar. -/
def ConformsRuleGrammar (s : String) : Prop :=
  ∃ freq arg : String,
    freq ∈ (["DAILY", "WEEKLY", "MONTHLY", "YEARLY"] : List String) ∧
    ((s = "RRULE:FREQ=" ++ freq ++ ";UNTIL=" ++ arg ++ "T000000Z"
        ∧ arg.length = 8 ∧ arg.data.all Char.isDigit = true)
     ∨ (s = "RRULE:FREQ=" ++ freq ++ ";COUNT=" ++ arg
        ∧ pyIsdigit arg = true ∧ 0 < pyToNat arg))

/-! ### Concrete fixtures used by witnesses and counterexamples -/

/-- A concrete parse oracle: the handful of datetime strings used by the
witnesses, everything else a `ValueError`. -/
def pFix : String → Option Instant :=
  fun s =>
    if s = "A" then some 0 else if s = "B" then some 1
    else if s = "Z0" then some 0
    else if s = "DTX" then some 5 else if s = "DTY" then some 3
    else if s = "2024-06-01T09:00:00" then some 100
    else if s = "2024-06-01T09:30:00" then some 130
    else none

/-- A concrete calendar list with one calendar named `Work`. -/
def clFix : List CalEntry :=
  [{ summary := "Work", id := "cal1", colorId := some "7" }]

/-- A concrete isoformat oracle matching `pFix` at instant 0. -/
def isoFix : Instant → String := fun t => if t = 0 then "Z0" else "Zx"

/-- A CSV row whose combined endpoints parse to start 5 and end 3. -/
def rowFix : ImportRow :=
  { summary := "S", startDate := "D", startTime := "X",
    endDate := "D", endTime := "Y" }

/-- A well-formed CSV row (start 100, end 130 under `pFix`). -/
def rowGood : ImportRow :=
  { summary := "Standup", startDate := "2024-06-01", startTime := "09:00:00",
    endDate := "2024-06-01", endTime := "09:30:00" }

/-- A second well-formed CSV row, distinct from `rowGood`. -/
def rowGood2 : ImportRow :=
  { summary := "Retro", startDate := "2024-06-01", startTime := "09:00:00",
    endDate := "2024-06-01", endTime := "09:30:00" }

/-- A concrete isoformat oracle for the update-event witnesses. -/
def isoU : Instant → String :=
  fun t => if t = 9 then "dt9" else if t = 5 then "dt5" else "dtx"

/-- A concrete parse oracle inverting `isoU` on the instants used. -/
def parseU : String → Option Instant :=
  fun s => if s = "dt9" then some 9 else if s = "dt5" then some 5 else none

/-- A concrete selected event for the update-event witnesses. -/
def selU : UEvent :=
  { id := "x", summary := "s", description := "", startStr := "dt5",
    endStr := "dt9" }

/-! ## Theorems -/

/-- Claim C6: for every calendar name the colour-id lookup is total and
never fails: a name with no configured hex uses the fixed default hex
`#236192`, and a hex with no entry in the hex-to-colour-id table yields the
provider default ColorId `"1"`; unknown inputs degrade to defaults. -/
theorem color_id_lookup_total_with_defaults :
    ∀ (cals cmap : List (String × String)) (name : String),
      (dictFind cals name = none →
        color_id_for cals cmap name = dictGet cmap "#236192" "1")
      ∧ (dictFind cmap (dictGet cals name "#236192") = none →
        color_id_for cals cmap name = "1") := by
  intro cals cmap name
  constructor
  · intro h
    unfold color_id_for
    rw [show dictGet cals name "#236192" = "#236192" by unfold dictGet; rw [h]; rfl]
  · intro h
    have hrfl : color_id_for cals cmap name
        = (dictFind cmap (dictGet cals name "#236192")).getD "1" := rfl
    rw [hrfl, h]
    rfl

/-- Witness for C6: a name absent from both configuration tables resolves
to the provider default ColorId `"1"`. -/
theorem color_id_lookup_total_with_defaults_witness :
    color_id_for [] [] "Personal" = "1" :=
  (color_id_lookup_total_with_defaults [] [] "Personal").2 (by decide)

/-- Claim C4: for a stored credential that is expired and has a refresh
token, authentication performs exactly one refresh attempt (and performs it
first); if the refresh reports invalid-grant, exactly one interactive OAuth
flow is run next, and failure of that flow terminates the operation with a
fatal exit; if the refresh succeeds, a session is returned without any
re-issuance flow. -/
theorem authenticate_expired_refresh_behaviour :
    ∀ (c : PyCreds) (refreshOk flowOk : Bool),
      c.expired = true → c.refresh_token = true →
      ((authenticate_google_calendar (some c) refreshOk flowOk).2.count
          AuthCall.refreshCall = 1
       ∧ (authenticate_google_calendar (some c) refreshOk flowOk).2.head?
          = some AuthCall.refreshCall
       ∧ (refreshOk = true →
            (authenticate_google_calendar (some c) refreshOk flowOk).1
              = AuthOutcome.service { c with expired := false }
            ∧ (authenticate_google_calendar (some c) refreshOk flowOk).2.count
                AuthCall.runFlow = 0)
       ∧ (refreshOk = false →
            (authenticate_google_calendar (some c) refreshOk flowOk).2.count
                AuthCall.runFlow = 1
            ∧ (flowOk = false →
                (authenticate_google_calendar (some c) refreshOk flowOk).1
                  = AuthOutcome.fatalExit))) := by
  intro c refreshOk flowOk he hr
  obtain ⟨rt, ex⟩ := c
  simp only at he hr
  subst he hr
  cases refreshOk <;> cases flowOk <;> decide

/-- Witness for C4: with an expired credential carrying a refresh token,
an invalid-grant refresh followed by a failing flow is fatal, after exactly
one refresh and one flow attempt. -/
theorem authenticate_expired_refresh_behaviour_witness :
    (authenticate_google_calendar
        (some { refresh_token := true, expired := true }) false false).2.count
      AuthCall.refreshCall = 1
    ∧ (authenticate_google_calendar
        (some { refresh_token := true, expired := true }) false false).2.count
      AuthCall.runFlow = 1
    ∧ (authenticate_google_calendar
        (some { refresh_token := true, expired := true }) false false).1
      = AuthOutcome.fatalExit := by
  have h := authenticate_expired_refresh_behaviour
    { refresh_token := true, expired := true } false false rfl rfl
  exact ⟨h.1, (h.2.2.2 rfl).1, (h.2.2.2 rfl).2 rfl⟩

/-- Claim C10 (amended): the start-before-end check of `update_event` is
syntactically guarded on both prompted endpoints being non-blank, but
`prompt_for_datetime` retries until it returns a non-empty isoformat
string, so both endpoints are always supplied: the range check runs on
every update, both endpoints of every submitted body are the newly
prompted ones, and no submitted update has parsed start at or after
parsed end.  The one-endpoint unvalidated-update scenario is
unreachable. -/
theorem update_event_range_always_checked :
    ∀ (parse : String → Option Instant) (iso : Instant → String)
      (sel : UEvent) (sumIn dIn : String) (s e : Instant),
      iso s ≠ "" → iso e ≠ "" →
      parse (iso s) = some s → parse (iso e) = some e →
      ((update_event parse sel sumIn (prompt_for_datetime iso s)
          (prompt_for_datetime iso e) dIn = none) ↔ e ≤ s)
      ∧ ∀ u, update_event parse sel sumIn (prompt_for_datetime iso s)
            (prompt_for_datetime iso e) dIn = some u →
          u.startStr = iso s ∧ u.endStr = iso e ∧ s < e := by
  intro parse iso sel sumIn dIn s e hne1 hne2 hp1 hp2
  unfold update_event prompt_for_datetime
  simp only []
  rw [if_neg hne1, if_neg hne2, if_neg (not_or.mpr ⟨hne1, hne2⟩), hp1, hp2]
  constructor
  · by_cases h : e ≤ s
    · simp [h]
    · simp [h]
  · intro u hu
    by_cases h : e ≤ s
    · simp [h] at hu
    · simp only [ge_iff_le, h, if_false, Option.some.injEq] at hu
      subst hu
      exact ⟨rfl, rfl, not_le.mp h⟩

/-- Witness for the amended C10: prompting start instant 5 and end
instant 9 submits a body carrying both new endpoints with start before
end. -/
theorem update_event_range_always_checked_witness :
    update_event parseU selU "" (prompt_for_datetime isoU 5)
        (prompt_for_datetime isoU 9) ""
      = some { id := "x", summary := "s", description := "",
               startStr := "dt5", endStr := "dt9" } := by
  have h := (update_event_range_always_checked parseU isoU selU "" "" 5 9
    (by decide) (by decide) (by decide) (by decide)).1
  cases hu : update_event parseU selU "" (prompt_for_datetime isoU 5)
      (prompt_for_datetime isoU 9) "" with
  | none => exact absurd (h.mp hu) (by decide)
  | some u => rw [← hu]; decide

/-- Counterexample to C10 as stated: `prompt_for_datetime` output is never
blank (both prompted endpoints are always supplied), and on the concrete
attempt to move only the start — prompting start instant 9 against
prompted end instant 5 — the range check runs and the update is not
submitted, where the claim asserts an unvalidated submission producing
`start >= end`. -/
theorem update_event_unreachable_blank_counterexample :
    prompt_for_datetime isoU 9 ≠ ""
    ∧ prompt_for_datetime isoU 5 ≠ ""
    ∧ update_event parseU selU "" (prompt_for_datetime isoU 9)
        (prompt_for_datetime isoU 5) "" = none := by
  decide

/-- Helper: `create_event` yields `invalidRange` exactly when the parsed
start is at or after the parsed end, and then issues no insert. -/
theorem create_event_range (parse : String → Option Instant) (cl : List CalEntry)
    (cals cmap : List (String × String)) (insertOk : Bool)
    (name su st et calId : String) (a b : Instant)
    (hcal : get_calendar_id cl name = some calId)
    (hs : parse st = some a) (he : parse et = some b) :
    ((create_event parse cl cals cmap insertOk name su st et).1
        = CreateResult.invalidRange ↔ b ≤ a)
    ∧ (b ≤ a → (create_event parse cl cals cmap insertOk name su st et).2 = []) := by
  unfold create_event
  rw [hcal, hs, he]
  by_cases hab : b ≤ a
  · have : a ≥ b := hab
    simp [this, hab]
  · have hge : ¬ a ≥ b := hab
    simp only []
    rw [if_neg hge]
    constructor
    · constructor
      · intro hcontra
        cases insertOk <;> simp_all
      · intro hcontra; exact absurd hcontra hab
    · intro hcontra; exact absurd hcontra hab

/-- Claim C1: in every construction path — direct `create_event`, templated
`add_event_using_template`, recurring `add_recurring_event`, and each
CSV-imported row — construction fails with the invalid-range validation
error exactly when the parsed start instant is greater than or equal to the
parsed end instant, and in that case no remote insert call is made. -/
theorem invalid_range_iff_in_every_path :
    (∀ (parse : String → Option Instant) (cl : List CalEntry)
        (cals cmap : List (String × String)) (insertOk : Bool)
        (name su st et calId : String) (a b : Instant),
      get_calendar_id cl name = some calId →
      parse st = some a → parse et = some b →
      (((create_event parse cl cals cmap insertOk name su st et).1
          = CreateResult.invalidRange) ↔ b ≤ a)
      ∧ (b ≤ a → (create_event parse cl cals cmap insertOk name su st et).2 = []))
    ∧
    (∀ (parse : String → Option Instant) (iso : Instant → String)
        (cl : List CalEntry) (cals cmap : List (String × String))
        (insertOk : Bool) (name calId : String) (tmpl : EventTemplate)
        (start_dt : Instant),
      get_calendar_id cl name = some calId →
      parse (iso start_dt) = some start_dt →
      parse (iso (start_dt + 60 * tmpl.duration.getD 60))
        = some (start_dt + 60 * tmpl.duration.getD 60) →
      (((add_event_using_template parse iso cl cals cmap insertOk name tmpl
            start_dt).1 = CreateResult.invalidRange)
          ↔ start_dt + 60 * tmpl.duration.getD 60 ≤ start_dt)
      ∧ (start_dt + 60 * tmpl.duration.getD 60 ≤ start_dt →
          (add_event_using_template parse iso cl cals cmap insertOk name tmpl
            start_dt).2 = []))
    ∧
    (∀ (parse : String → Option Instant) (cl : List CalEntry) (insertOk : Bool)
        (name su st et ch cond ed cnt calId : String) (a b : Instant),
      get_calendar_id cl name = some calId →
      parse st = some a → parse et = some b →
      (((add_recurring_event parse cl insertOk name su st et ch cond ed cnt).1
          = RecurResult.invalidRange) ↔ b ≤ a)
      ∧ (b ≤ a →
          (add_recurring_event parse cl insertOk name su st et ch cond ed cnt).2
            = []))
    ∧
    (∀ (parse : String → Option Instant) (color_id : String) (insertOk : Bool)
        (row : ImportRow) (a b : Instant),
      row.summary ≠ "" → row.startDate ≠ "" → row.startTime ≠ "" →
      row.endDate ≠ "" → row.endTime ≠ "" →
      parse (row.startDate ++ "T" ++ row.startTime) = some a →
      parse (row.endDate ++ "T" ++ row.endTime) = some b →
      ((processRow parse color_id insertOk row
          = RowOutcome.reject RejectReason.invalidRange) ↔ b ≤ a)
      ∧ (b ≤ a → ∀ (calendar_id : String) (iok : Nat → Bool)
          (rows : List ImportRow) (k : Nat),
          (importLoop parse calendar_id color_id iok (row :: rows) k).calls
            = (importLoop parse calendar_id color_id iok rows k).calls)) := by
  refine ⟨?_, ?_, ?_, ?_⟩
  · intro parse cl cals cmap insertOk name su st et calId a b hcal hs he
    exact create_event_range parse cl cals cmap insertOk name su st et calId a b
      hcal hs he
  · intro parse iso cl cals cmap insertOk name calId tmpl start_dt hcal hs he
    unfold add_event_using_template
    rw [hcal]
    exact create_event_range parse cl cals cmap insertOk name
      (tmpl.summary.getD "Untitled Event") (iso start_dt)
      (iso (start_dt + 60 * tmpl.duration.getD 60)) calId start_dt
      (start_dt + 60 * tmpl.duration.getD 60) hcal hs he
  · intro parse cl insertOk name su st et ch cond ed cnt calId a b hcal hs he
    unfold add_recurring_event
    rw [hcal, hs, he]
    by_cases hab : b ≤ a
    · have hge : a ≥ b := hab
      simp [hge, hab]
    · have hge : ¬ a ≥ b := hab
      simp only []
      rw [if_neg hge]
      constructor
      · constructor
        · intro hcontra
          rcases hfind : dictFind frequency_mapping ch with _ | freq <;>
            rw [hfind] at hcontra <;> by_cases hd : cond = "d" <;>
            by_cases hn : cond = "n" <;> by_cases hdig : pyIsdigit cnt <;>
            cases insertOk <;> simp_all
        · intro hcontra; exact absurd hcontra hab
      · intro hcontra; exact absurd hcontra hab
  · intro parse color_id insertOk row a b h1 h2 h3 h4 h5 hs he
    have hblank : (row.summary == "" || row.startDate == "" || row.startTime == ""
        || row.endDate == "" || row.endTime == "") = false := by
      simp [h1, h2, h3, h4, h5]
    have hpr : ∀ ok : Bool, processRow parse color_id ok row
        = if b ≤ a then RowOutcome.reject RejectReason.invalidRange
          else (if ok then RowOutcome.inserted
                  { summary := row.summary,
                    startStr := row.startDate ++ "T" ++ row.startTime,
                    endStr := row.endDate ++ "T" ++ row.endTime,
                    colorId := some color_id, reminders := defaultReminders,
                    recurrence := none }
                else RowOutcome.remoteFailed
                  { summary := row.summary,
                    startStr := row.startDate ++ "T" ++ row.startTime,
                    endStr := row.endDate ++ "T" ++ row.endTime,
                    colorId := some color_id, reminders := defaultReminders,
                    recurrence := none }) := by
      intro ok
      unfold processRow
      rw [hblank, hs, he]
      rfl
    constructor
    · rw [hpr insertOk]
      by_cases hab : b ≤ a
      · simp [hab]
      · cases insertOk <;> simp [hab]
    · intro hab calendar_id iok rows k
      have : processRow parse color_id (iok k) row
          = RowOutcome.reject RejectReason.invalidRange := by
        rw [hpr (iok k), if_pos hab]
      simp [importLoop, this]

/-- Witness for C1: at concrete inputs with parsed start at or after parsed
end, each of the four construction paths fails with the invalid-range error
and the direct path issues no insert. -/
theorem invalid_range_iff_in_every_path_witness :
    (create_event pFix clFix [] [] true "Work" "S" "B" "A").1
      = CreateResult.invalidRange
    ∧ (create_event pFix clFix [] [] true "Work" "S" "B" "A").2 = []
    ∧ (add_event_using_template pFix isoFix clFix [] [] true "Work"
        { summary := none, duration := some 0 } 0).1 = CreateResult.invalidRange
    ∧ (add_recurring_event pFix clFix true "Work" "S" "B" "A" "1" "d" "x" "").1
        = RecurResult.invalidRange
    ∧ processRow pFix "7" true rowFix
        = RowOutcome.reject RejectReason.invalidRange := by
  have h := invalid_range_iff_in_every_path
  refine ⟨?_, ?_, ?_, ?_, ?_⟩
  · exact (h.1 pFix clFix [] [] true "Work" "S" "B" "A" "cal1" 1 0
      (by decide) (by decide) (by decide)).1.mpr (by decide)
  · exact (h.1 pFix clFix [] [] true "Work" "S" "B" "A" "cal1" 1 0
      (by decide) (by decide) (by decide)).2 (by decide)
  · exact (h.2.1 pFix isoFix clFix [] [] true "Work" "cal1"
      { summary := none, duration := some 0 } 0
      (by decide) (by decide) (by decide)).1.mpr (by decide)
  · exact (h.2.2.1 pFix clFix true "Work" "S" "B" "A" "1" "d" "x" "" "cal1" 1 0
      (by decide) (by decide) (by decide)).1.mpr (by decide)
  · exact (h.2.2.2 pFix "7" true rowFix 5 3 (by decide) (by decide) (by decide)
      (by decide) (by decide) (by decide) (by decide)).1.mpr (by decide)

/-! ### Lemmas about the colour-sync loop -/

/-- When every update succeeds, the sync loop rewrites every differing
event to the target colour, records one update call per differing event,
and reports the accumulated count. -/
theorem syncLoop_all_ok (cid : String) (updateOk : Nat → Bool)
    (h : ∀ k, updateOk k = true) :
    ∀ (evs : List GEvent) (k cnt : Nat),
      syncLoop cid updateOk evs k cnt =
        { events := evs.map (fun ev =>
            if ev.colorId == some cid then ev
            else { ev with colorId := some cid }),
          calls := (evs.filter (fun ev => !(ev.colorId == some cid))).map
            (fun ev => (ev, { ev with colorId := some cid })),
          reported := some (cnt +
            (evs.filter (fun ev => !(ev.colorId == some cid))).length) } := by
  intro evs
  induction evs with
  | nil => intro k cnt; simp [syncLoop]
  | cons ev rest ih =>
    intro k cnt
    cases hc : (ev.colorId == some cid) with
    | true =>
      have hceq : ev.colorId = some cid := by simpa using hc
      simp [syncLoop, hc, hceq, ih k cnt]
    | false =>
      have hcne : ¬ ev.colorId = some cid := by
        intro heq; rw [heq] at hc; simp at hc
      simp [syncLoop, hc, hcne, h k, ih (k + 1) (cnt + 1)]
      omega

/-- Every update call records a body identical to the original event except
for the colour identifier, whatever the update outcomes. -/
theorem syncLoop_calls_body (cid : String) (updateOk : Nat → Bool) :
    ∀ (evs : List GEvent) (k cnt : Nat),
      ∀ p ∈ (syncLoop cid updateOk evs k cnt).calls,
        p.2 = { p.1 with colorId := some cid } := by
  intro evs
  induction evs with
  | nil => intro k cnt p hp; simp [syncLoop] at hp
  | cons ev rest ih =>
    intro k cnt p hp
    cases hc : (ev.colorId == some cid) with
    | true =>
      simp only [syncLoop, hc, if_true] at hp
      exact ih k cnt p hp
    | false =>
      cases hu : updateOk k with
      | true =>
        simp only [syncLoop, hc, hu, Bool.false_eq_true, if_false, if_true,
          List.mem_cons] at hp
        rcases hp with rfl | hp
        · rfl
        · exact ih (k + 1) (cnt + 1) p hp
      | false =>
        simp only [syncLoop, hc, hu, Bool.false_eq_true, if_false,
          List.mem_singleton] at hp
        subst hp
        rfl

/-- When the loop completes and reports a count, that count is exactly the
number of update calls made, every one of which succeeded. -/
theorem syncLoop_reported_some (cid : String) (updateOk : Nat → Bool) :
    ∀ (evs : List GEvent) (k cnt c : Nat),
      (syncLoop cid updateOk evs k cnt).reported = some c →
      c = cnt + (syncLoop cid updateOk evs k cnt).calls.length
      ∧ ∀ j, k ≤ j → j < k + (syncLoop cid updateOk evs k cnt).calls.length →
          updateOk j = true := by
  intro evs
  induction evs with
  | nil =>
    intro k cnt c hc
    simp only [syncLoop, Option.some.injEq] at hc
    subst hc
    exact ⟨by simp [syncLoop], by intro j h1 h2; simp [syncLoop] at h2; omega⟩
  | cons ev rest ih =>
    intro k cnt c hc
    cases hcol : (ev.colorId == some cid) with
    | true =>
      simp only [syncLoop, hcol, if_true] at hc ⊢
      exact ih k cnt c hc
    | false =>
      cases hu : updateOk k with
      | true =>
        simp only [syncLoop, hcol, hu, Bool.false_eq_true, if_false, if_true]
          at hc ⊢
        obtain ⟨hlen, hall⟩ := ih (k + 1) (cnt + 1) c hc
        constructor
        · simp only [List.length_cons]
          omega
        · intro j h1 h2
          simp only [List.length_cons] at h2
          by_cases hj : j = k
          · subst hj; exact hu
          · exact hall j (by omega) (by omega)
      | false =>
        simp only [syncLoop, hcol, hu, Bool.false_eq_true, if_false] at hc
        exact Option.noConfusion hc

/-- A run that never reports a count hit a failing update. -/
theorem syncLoop_reported_none (cid : String) (updateOk : Nat → Bool) :
    ∀ (evs : List GEvent) (k cnt : Nat),
      (syncLoop cid updateOk evs k cnt).reported = none →
      ∃ j, updateOk j = false := by
  intro evs
  induction evs with
  | nil => intro k cnt hc; simp [syncLoop] at hc
  | cons ev rest ih =>
    intro k cnt hc
    cases hcol : (ev.colorId == some cid) with
    | true =>
      simp only [syncLoop, hcol, if_true] at hc
      exact ih k cnt hc
    | false =>
      cases hu : updateOk k with
      | true =>
        simp only [syncLoop, hcol, hu, Bool.false_eq_true, if_false, if_true]
          at hc
        exact ih (k + 1) (cnt + 1) hc
      | false => exact ⟨k, hu⟩

/-- Claim C3: colour reconciliation is idempotent — with the calendar
found and every update succeeding, a second run right after a first one
reports an updated count of 0; and the first run updates exactly the
events whose colour identifier differs from the policy target, events with
no colour identifier always differing. -/
theorem sync_event_colors_idempotent :
    ∀ (cl : List CalEntry) (cals cmap : List (String × String))
      (name : String) (events : List GEvent) (updateOk : Nat → Bool)
      (calId : String),
      get_calendar_id cl name = some calId → (∀ k, updateOk k = true) →
      ∃ r1 r2,
        sync_event_colors cl cals cmap name events updateOk = some r1
        ∧ sync_event_colors cl cals cmap name r1.events updateOk = some r2
        ∧ r2.reported = some 0
        ∧ r1.calls = (events.filter
            (fun ev => !(ev.colorId == some (color_id_for cals cmap name)))).map
            (fun ev => (ev, { ev with colorId := some (color_id_for cals cmap name) }))
        ∧ (∀ ev ∈ events, ev.colorId = none →
            (ev, { ev with colorId := some (color_id_for cals cmap name) })
              ∈ r1.calls) := by
  intro cl cals cmap name events updateOk calId hcal hok
  unfold sync_event_colors
  rw [hcal]
  refine ⟨_, _, rfl, rfl, ?_, ?_, ?_⟩
  · rw [syncLoop_all_ok _ updateOk hok events 0 0]
    rw [syncLoop_all_ok _ updateOk hok _ 0 0]
    simp only [List.filter_map, List.length_map]
    simp
    intro a ha
    by_cases hc : a.colorId = some (color_id_for cals cmap name)
    · simp [hc]
    · simp [hc]
  · rw [syncLoop_all_ok _ updateOk hok events 0 0]
  · intro ev hev hnone
    rw [syncLoop_all_ok _ updateOk hok events 0 0]
    simp only [List.mem_map]
    refine ⟨ev, ?_, rfl⟩
    rw [List.mem_filter]
    refine ⟨hev, ?_⟩
    rw [hnone]
    rfl

/-- Witness for C3: two consecutive runs on a one-event calendar, the
second reporting zero updates. -/
theorem sync_event_colors_idempotent_witness :
    sync_event_colors clFix [] [] "Work"
        [{ id := "e1", summary := "s1", colorId := none, rest := "r1" }]
        (fun _ => true)
      = some { events := [{ id := "e1", summary := "s1", colorId := some "1",
                            rest := "r1" }],
               calls := [({ id := "e1", summary := "s1", colorId := none,
                            rest := "r1" },
                          { id := "e1", summary := "s1", colorId := some "1",
                            rest := "r1" })],
               reported := some 1 }
    ∧ sync_event_colors clFix [] [] "Work"
        [{ id := "e1", summary := "s1", colorId := some "1", rest := "r1" }]
        (fun _ => true)
      = some { events := [{ id := "e1", summary := "s1", colorId := some "1",
                            rest := "r1" }],
               calls := [], reported := some 0 } := by
  have h := sync_event_colors_idempotent clFix [] [] "Work"
    [{ id := "e1", summary := "s1", colorId := none, rest := "r1" }]
    (fun _ => true) "cal1" (by decide) (fun _ => rfl)
  obtain ⟨r1, r2, h1, h2, h3, _, _⟩ := h
  have hr1 : r1 = { events := [{ id := "e1", summary := "s1",
                                 colorId := some "1", rest := "r1" }],
                    calls := [({ id := "e1", summary := "s1", colorId := none,
                                 rest := "r1" },
                               { id := "e1", summary := "s1",
                                 colorId := some "1", rest := "r1" })],
                    reported := some 1 } := by
    have := h1
    rw [show sync_event_colors clFix [] [] "Work"
        [{ id := "e1", summary := "s1", colorId := none, rest := "r1" }]
        (fun _ => true)
        = some { events := [{ id := "e1", summary := "s1", colorId := some "1",
                              rest := "r1" }],
                 calls := [({ id := "e1", summary := "s1", colorId := none,
                              rest := "r1" },
                            { id := "e1", summary := "s1", colorId := some "1",
                              rest := "r1" })],
                 reported := some 1 } from by decide] at this
    exact (Option.some.injEq _ _ ▸ this).symm
  constructor
  · rw [← hr1] at *; exact h1
  · have h2' := h2
    rw [hr1] at h2'
    rw [show sync_event_colors clFix [] [] "Work"
        [{ id := "e1", summary := "s1", colorId := some "1", rest := "r1" }]
        (fun _ => true)
        = some { events := [{ id := "e1", summary := "s1", colorId := some "1",
                              rest := "r1" }],
                 calls := [], reported := some 0 } from by decide]

/-- Claim C9: each update performed by colour reconciliation sets only the
colour identifier — every other field of the submitted body equals the
original event's field. -/
theorem sync_updates_touch_only_color :
    ∀ (cl : List CalEntry) (cals cmap : List (String × String))
      (name : String) (events : List GEvent) (updateOk : Nat → Bool)
      (r : SyncResult),
      sync_event_colors cl cals cmap name events updateOk = some r →
      ∀ p ∈ r.calls,
        p.2.id = p.1.id ∧ p.2.summary = p.1.summary ∧ p.2.rest = p.1.rest
        ∧ p.2.colorId = some (color_id_for cals cmap name) := by
  intro cl cals cmap name events updateOk r hr p hp
  unfold sync_event_colors at hr
  cases hcal : get_calendar_id cl name with
  | none => rw [hcal] at hr; exact absurd hr (by simp)
  | some calId =>
    rw [hcal] at hr
    have hr' : syncLoop (color_id_for cals cmap name) updateOk events 0 0 = r :=
      Option.some.inj hr
    rw [← hr'] at hp
    have hb := syncLoop_calls_body (color_id_for cals cmap name) updateOk
      events 0 0 p hp
    rw [hb]
    exact ⟨rfl, rfl, rfl, rfl⟩

/-- Witness for C9: on a concrete run, the single update call keeps id,
summary and the rest of the payload and sets only the colour. -/
theorem sync_updates_touch_only_color_witness :
    ({ id := "e1", summary := "s1", colorId := some "1", rest := "r1" } :
        GEvent).id
      = ({ id := "e1", summary := "s1", colorId := some "9", rest := "r1" } :
        GEvent).id
    ∧ ({ id := "e1", summary := "s1", colorId := some "1", rest := "r1" } :
        GEvent).colorId = some (color_id_for [] [] "Work") := by
  have h := sync_updates_touch_only_color clFix [] [] "Work"
    [{ id := "e1", summary := "s1", colorId := some "9", rest := "r1" }]
    (fun _ => true)
    { events := [{ id := "e1", summary := "s1", colorId := some "1",
                   rest := "r1" }],
      calls := [({ id := "e1", summary := "s1", colorId := some "9",
                   rest := "r1" },
                 { id := "e1", summary := "s1", colorId := some "1",
                   rest := "r1" })],
      reported := some 1 }
    (by decide)
    ({ id := "e1", summary := "s1", colorId := some "9", rest := "r1" },
     { id := "e1", summary := "s1", colorId := some "1", rest := "r1" })
    (by simp)
  exact ⟨h.1, h.2.2.2⟩

/-- Claim C7 (amended): a failure while updating one event aborts the loop
over the remaining events and no updated count is reported; the count is
reported only when every attempted update succeeded, and then it equals
the number of updates performed; when all updates succeed it is the number
of differing events. -/
theorem sync_best_effort_amended :
    ∀ (cl : List CalEntry) (cals cmap : List (String × String))
      (name : String) (events : List GEvent) (updateOk : Nat → Bool)
      (calId : String),
      get_calendar_id cl name = some calId →
      ∃ r, sync_event_colors cl cals cmap name events updateOk = some r
        ∧ ((∀ k, updateOk k = true) →
            r.reported = some ((events.filter
              (fun ev => !(ev.colorId == some (color_id_for cals cmap name)))).length))
        ∧ (∀ c, r.reported = some c →
            c = r.calls.length ∧ ∀ j, j < c → updateOk j = true)
        ∧ (r.reported = none → ∃ j, updateOk j = false) := by
  intro cl cals cmap name events updateOk calId hcal
  unfold sync_event_colors
  rw [hcal]
  refine ⟨_, rfl, ?_, ?_, ?_⟩
  · intro hok
    rw [syncLoop_all_ok _ updateOk hok events 0 0]
    simp
  · intro c hc
    obtain ⟨h1, h2⟩ := syncLoop_reported_some _ updateOk events 0 0 c hc
    refine ⟨by omega, ?_⟩
    intro j hj
    exact h2 j (Nat.zero_le j) (by omega)
  · intro hn
    exact syncLoop_reported_none _ updateOk events 0 0 hn

/-- Witness for the amended C7: with every update succeeding, the run on a
one-differing-event calendar reports a count of 1. -/
theorem sync_best_effort_amended_witness :
    (sync_event_colors clFix [] [] "Work"
        [{ id := "e1", summary := "s1", colorId := some "9", rest := "r1" }]
        (fun _ => true)).map SyncResult.reported = some (some 1) := by
  obtain ⟨r, hr, hall, -, -⟩ := sync_best_effort_amended clFix [] [] "Work"
    [{ id := "e1", summary := "s1", colorId := some "9", rest := "r1" }]
    (fun _ => true) "cal1" (by decide)
  rw [hr, Option.map_some']
  rw [hall (fun _ => rfl)]
  decide

/-- Counterexample to C7 as stated: two events both differ from the target
colour, the first update fails, and the loop aborts — only one update call
is made (the second event is never attempted) and no updated count is
reported, where the claim promises a best-effort pass over the full event
set with a reported count. -/
theorem sync_update_failure_aborts_counterexample :
    sync_event_colors clFix [] [] "Work"
        [{ id := "e1", summary := "s1", colorId := some "9", rest := "r1" },
         { id := "e2", summary := "s2", colorId := some "9", rest := "r2" }]
        (fun _ => false)
      = some { events :=
                 [{ id := "e1", summary := "s1", colorId := some "9",
                    rest := "r1" },
                  { id := "e2", summary := "s2", colorId := some "9",
                    rest := "r2" }],
               calls :=
                 [({ id := "e1", summary := "s1", colorId := some "9",
                     rest := "r1" },
                   { id := "e1", summary := "s1", colorId := some "1",
                     rest := "r1" })],
               reported := none } := by
  decide

/-! ### Lemmas about the CSV import loop -/

/-- Every row is either rejected with one of the three reasons, or builds a
payload carrying the batch colour, inserted or remote-failed according to
the insert outcome. -/
theorem processRow_shape (parse : String → Option Instant) (color_id : String)
    (insertOk : Bool) (row : ImportRow) :
    (∃ reason, processRow parse color_id insertOk row
        = RowOutcome.reject reason)
    ∨ (∃ body, body.colorId = some color_id
        ∧ processRow parse color_id insertOk row
          = if insertOk then RowOutcome.inserted body
            else RowOutcome.remoteFailed body) := by
  unfold processRow
  split
  · exact Or.inl ⟨RejectReason.missingField, rfl⟩
  · split
    · split
      · exact Or.inl ⟨RejectReason.invalidRange, rfl⟩
      · exact Or.inr ⟨_, rfl, rfl⟩
    · exact Or.inl ⟨RejectReason.invalidFormat, rfl⟩

/-- When every insert succeeds, the import loop never aborts and
partitions the rows: accepted plus rejected counts equal the row count. -/
theorem importLoop_all_ok (parse : String → Option Instant)
    (calendar_id color_id : String) (insertOk : Nat → Bool)
    (h : ∀ k, insertOk k = true) :
    ∀ (rows : List ImportRow) (k : Nat),
      (importLoop parse calendar_id color_id insertOk rows k).aborted = false
      ∧ (importLoop parse calendar_id color_id insertOk rows k).accepted.length
        + (importLoop parse calendar_id color_id insertOk rows k).rejected.length
        = rows.length := by
  intro rows
  induction rows with
  | nil => intro k; simp [importLoop]
  | cons row rest ih =>
    intro k
    rcases processRow_shape parse color_id (insertOk k) row with
      ⟨reason, hpr⟩ | ⟨body, hcol, hpr⟩
    · simp only [importLoop, hpr]
      obtain ⟨h1, h2⟩ := ih k
      refine ⟨by simpa using h1, ?_⟩
      simp only [List.length_cons]
      omega
    · have hpr' : processRow parse color_id (insertOk k) row
          = RowOutcome.inserted body := by
        rw [hpr, h k]; simp
      simp only [importLoop, hpr']
      obtain ⟨h1, h2⟩ := ih (k + 1)
      refine ⟨by simpa using h1, ?_⟩
      simp only [List.length_cons]
      omega

/-- Every call issued inside the import loop is an insert to the resolved
calendar whose payload carries the batch colour. -/
theorem importLoop_calls_shape (parse : String → Option Instant)
    (calendar_id color_id : String) (insertOk : Nat → Bool) :
    ∀ (rows : List ImportRow) (k : Nat),
      ∀ c ∈ (importLoop parse calendar_id color_id insertOk rows k).calls,
        ∃ body, c = CsvCall.insert calendar_id body
          ∧ body.colorId = some color_id := by
  intro rows
  induction rows with
  | nil => intro k c hc; simp [importLoop] at hc
  | cons row rest ih =>
    intro k c hc
    rcases processRow_shape parse color_id (insertOk k) row with
      ⟨reason, hpr⟩ | ⟨body, hcol, hpr⟩
    · simp only [importLoop, hpr] at hc
      exact ih k c hc
    · cases hok : insertOk k with
      | true =>
        have hpr' : processRow parse color_id (insertOk k) row
            = RowOutcome.inserted body := by rw [hpr, hok]; simp
        simp only [importLoop, hpr', List.mem_cons] at hc
        rcases hc with rfl | hc
        · exact ⟨body, rfl, hcol⟩
        · exact ih (k + 1) c hc
      | false =>
        have hpr' : processRow parse color_id (insertOk k) row
            = RowOutcome.remoteFailed body := by rw [hpr, hok]; simp
        simp only [importLoop, hpr', List.mem_singleton] at hc
        subst hc
        exact ⟨body, rfl, hcol⟩

/-- Claim C2 (amended): each CSV row is accepted or rejected with a reason
and the counts partition the input — provided every attempted remote
insert succeeds; malformed rows alone never abort the import.  (A failing
remote insert aborts the batch: see the counterexample.) -/
theorem import_partition_when_inserts_succeed :
    ∀ (parse : String → Option Instant) (cl : List CalEntry) (name : String)
      (rows : List ImportRow) (insertOk : Nat → Bool) (calId : String),
      get_calendar_id cl name = some calId → (∀ k, insertOk k = true) →
      ∃ r, (import_from_csv parse cl name rows insertOk).1 = some r
        ∧ r.aborted = false
        ∧ r.accepted.length + r.rejected.length = rows.length := by
  intro parse cl name rows insertOk calId hcal hok
  unfold import_from_csv
  rw [hcal]
  exact ⟨_, rfl,
    (importLoop_all_ok parse calId (get_calendar_color_id cl name) insertOk hok
      rows 0).1,
    (importLoop_all_ok parse calId (get_calendar_color_id cl name) insertOk hok
      rows 0).2⟩

/-- Witness for the amended C2: a two-row batch (one valid, one with an
inverted range) with succeeding inserts does not abort, and accepted plus
rejected counts equal 2. -/
theorem import_partition_when_inserts_succeed_witness :
    (import_from_csv pFix clFix "Work" [rowGood, rowFix] (fun _ => true)).1.map
        (fun r => (r.aborted, r.accepted.length + r.rejected.length))
      = some (false, 2) := by
  obtain ⟨r, hr, h1, h2⟩ := import_partition_when_inserts_succeed pFix clFix
    "Work" [rowGood, rowFix] (fun _ => true) "cal1" (by decide) (fun _ => rfl)
  rw [hr]
  simp [h1, h2]

/-- Counterexample to C2 as stated: two well-formed rows, the first row's
remote insert fails, and the import aborts — the second row is never
attempted (one insert call), no row is accepted or rejected, so accepted
plus rejected is 0 while the input has 2 rows. -/
theorem import_insert_failure_aborts_counterexample :
    (import_from_csv pFix clFix "Work" [rowGood, rowGood2] (fun _ => false)).1
      = some { accepted := [], rejected := [], aborted := true,
               calls := [CsvCall.insert "cal1"
                 { summary := "Standup", startStr := "2024-06-01T09:00:00",
                   endStr := "2024-06-01T09:30:00", colorId := some "7",
                   reminders := defaultReminders, recurrence := none }] } := by
  decide

/-- Claim C8: `import_from_csv` resolves the calendar exactly once and its
colour exactly once, and every insert in the batch goes to that calendar
with that single colour id. -/
theorem import_resolves_once_uniform_color :
    ∀ (parse : String → Option Instant) (cl : List CalEntry) (name : String)
      (rows : List ImportRow) (insertOk : Nat → Bool) (calId : String),
      get_calendar_id cl name = some calId →
      (import_from_csv parse cl name rows insertOk).2.countP
          isGetCalendarIdCall = 1
      ∧ (import_from_csv parse cl name rows insertOk).2.countP
          isGetColorIdCall = 1
      ∧ ∀ cid body,
          CsvCall.insert cid body ∈ (import_from_csv parse cl name rows insertOk).2 →
          cid = calId ∧ body.colorId = some (get_calendar_color_id cl name) := by
  intro parse cl name rows insertOk calId hcal
  unfold import_from_csv
  rw [hcal]
  simp only []
  have hzero1 : (importLoop parse calId (get_calendar_color_id cl name) insertOk
      rows 0).calls.countP isGetCalendarIdCall = 0 := by
    rw [List.countP_eq_zero]
    intro c hc
    obtain ⟨body, rfl, -⟩ := importLoop_calls_shape parse calId
      (get_calendar_color_id cl name) insertOk rows 0 c hc
    simp [isGetCalendarIdCall]
  have hzero2 : (importLoop parse calId (get_calendar_color_id cl name) insertOk
      rows 0).calls.countP isGetColorIdCall = 0 := by
    rw [List.countP_eq_zero]
    intro c hc
    obtain ⟨body, rfl, -⟩ := importLoop_calls_shape parse calId
      (get_calendar_color_id cl name) insertOk rows 0 c hc
    simp [isGetColorIdCall]
  refine ⟨?_, ?_, ?_⟩
  · simp [List.countP_cons, isGetCalendarIdCall, isGetColorIdCall, hzero1]
  · simp [List.countP_cons, isGetCalendarIdCall, isGetColorIdCall, hzero2]
  · intro cid body hmem
    simp only [List.mem_cons] at hmem
    rcases hmem with h | h | h
    · exact absurd h (by simp)
    · exact absurd h (by simp)
    · obtain ⟨body', heq, hcol⟩ := importLoop_calls_shape parse calId
        (get_calendar_color_id cl name) insertOk rows 0 _ h
      injection heq with he1 he2
      subst he1
      subst he2
      exact ⟨rfl, hcol⟩

/-- Witness for C8: on a one-row import the trace contains exactly one
calendar resolution and one colour resolution. -/
theorem import_resolves_once_uniform_color_witness :
    (import_from_csv pFix clFix "Work" [rowGood] (fun _ => true)).2.countP
        isGetCalendarIdCall = 1
    ∧ (import_from_csv pFix clFix "Work" [rowGood] (fun _ => true)).2.countP
        isGetColorIdCall = 1 := by
  have h := import_resolves_once_uniform_color pFix clFix "Work" [rowGood]
    (fun _ => true) "cal1" (by decide)
  exact ⟨h.1, h.2.1⟩

/-! ### String lemmas for the recurrence-rule grammar -/

theorem strAppend_left_cancel {a b c : String} (h : a ++ b = a ++ c) : b = c := by
  apply String.ext
  have hd := congrArg String.data h
  rw [String.data_append, String.data_append] at hd
  exact List.append_cancel_left hd

theorem strAppend_right_cancel {a b c : String} (h : a ++ c = b ++ c) : a = b := by
  apply String.ext
  have hd := congrArg String.data h
  rw [String.data_append, String.data_append] at hd
  exact List.append_cancel_right hd

theorem str_ne_of_take_ne (lit pre tail : String)
    (h : lit.data.take pre.data.length ≠ pre.data) : lit ≠ pre ++ tail := by
  intro he
  apply h
  rw [he, String.data_append, List.take_left]

/-- A menu choice outside `1`–`4` has no frequency. -/
theorem dictFind_frequency_eq_none {c : String}
    (h1 : c ≠ "1") (h2 : c ≠ "2") (h3 : c ≠ "3") (h4 : c ≠ "4") :
    dictFind frequency_mapping c = none := by
  have hall : ∀ x ∈ frequency_mapping, ¬(x.1 == c) = true := by
    intro x hx
    simp only [frequency_mapping, List.mem_cons, List.not_mem_nil, or_false]
      at hx
    rcases hx with rfl | rfl | rfl | rfl <;>
      · simp only [beq_iff_eq]
        intro hec
        first
        | exact h1 hec.symm
        | exact h2 hec.symm
        | exact h3 hec.symm
        | exact h4 hec.symm
  unfold dictFind
  rw [List.find?_eq_none.mpr hall]
  rfl

/-- Each valid menu choice maps to one of the four frequencies. -/
theorem frequency_of_choice {choice : String}
    (h : choice ∈ (["1", "2", "3", "4"] : List String)) :
    ∃ freq, dictFind frequency_mapping choice = some freq
      ∧ freq ∈ (["DAILY", "WEEKLY", "MONTHLY", "YEARLY"] : List String) := by
  fin_cases h
  · exact ⟨"DAILY", by decide, by decide⟩
  · exact ⟨"WEEKLY", by decide, by decide⟩
  · exact ⟨"MONTHLY", by decide, by decide⟩
  · exact ⟨"YEARLY", by decide, by decide⟩

/-- The rule emitted for date termination, verbatim. -/
theorem add_recurring_event_d_rule (parse : String → Option Instant)
    (cl : List CalEntry) (insertOk : Bool)
    (name su st et choice ed cnt calId freq : String) (s e : Instant)
    (hcal : get_calendar_id cl name = some calId)
    (hs : parse st = some s) (he : parse et = some e) (hlt : s < e)
    (hfreq : dictFind frequency_mapping choice = some freq) :
    add_recurring_event parse cl insertOk name su st et choice "d" ed cnt
      = ((if insertOk then RecurResult.created else RecurResult.remoteError),
         [RemoteCall.insert calId
           { summary := su, startStr := st, endStr := et, colorId := none,
             reminders := defaultReminders,
             recurrence := some ("RRULE:FREQ=" ++ freq ++ ";UNTIL="
               ++ removeDashes ed ++ "T000000Z") }]) := by
  unfold add_recurring_event
  rw [hcal, hs, he]
  simp only []
  rw [if_neg (not_le.mpr hlt), hfreq]
  simp

/-- The rule emitted for count termination, verbatim. -/
theorem add_recurring_event_n_rule (parse : String → Option Instant)
    (cl : List CalEntry) (insertOk : Bool)
    (name su st et choice ed cnt calId freq : String) (s e : Instant)
    (hcal : get_calendar_id cl name = some calId)
    (hs : parse st = some s) (he : parse et = some e) (hlt : s < e)
    (hfreq : dictFind frequency_mapping choice = some freq)
    (hdig : pyIsdigit cnt = true) :
    add_recurring_event parse cl insertOk name su st et choice "n" ed cnt
      = ((if insertOk then RecurResult.created else RecurResult.remoteError),
         [RemoteCall.insert calId
           { summary := su, startStr := st, endStr := et, colorId := none,
             reminders := defaultReminders,
             recurrence := some ("RRULE:FREQ=" ++ freq ++ ";COUNT=" ++ cnt) }]) := by
  unfold add_recurring_event
  rw [hcal, hs, he]
  simp only []
  rw [if_neg (not_le.mpr hlt), hfreq]
  simp [hdig]

/-- Claim C5 (amended): with a well-formed termination input — an end date
whose dash-stripped form is eight digits, or a positive all-digit count —
the emitted recurrence rule conforms to the specified grammar; the two
verbatim scenarios hold; and a frequency choice outside the four enumerated
values fails without creating an event.  (For free-form termination input
the emitted rule can violate the grammar: see the counterexample.) -/
theorem recurrence_rule_amended :
    ∀ (parse : String → Option Instant) (cl : List CalEntry) (insertOk : Bool)
      (name su st et choice cond ed cnt calId : String) (s e : Instant),
      get_calendar_id cl name = some calId →
      parse st = some s → parse et = some e → s < e →
      ((choice ≠ "1" ∧ choice ≠ "2" ∧ choice ≠ "3" ∧ choice ≠ "4") →
          add_recurring_event parse cl insertOk name su st et choice cond ed cnt
            = (RecurResult.invalidFrequency, []))
      ∧ (choice ∈ (["1", "2", "3", "4"] : List String) →
          (removeDashes ed).length = 8 →
          (removeDashes ed).data.all Char.isDigit = true →
          ∃ body,
            (add_recurring_event parse cl insertOk name su st et choice "d" ed
                cnt).2 = [RemoteCall.insert calId body]
            ∧ ∃ rule, body.recurrence = some rule ∧ ConformsRuleGrammar rule)
      ∧ (choice ∈ (["1", "2", "3", "4"] : List String) →
          pyIsdigit cnt = true → 0 < pyToNat cnt →
          ∃ body,
            (add_recurring_event parse cl insertOk name su st et choice "n" ed
                cnt).2 = [RemoteCall.insert calId body]
            ∧ ∃ rule, body.recurrence = some rule ∧ ConformsRuleGrammar rule)
      ∧ ((add_recurring_event parse cl insertOk name su st et "2" "n" ed "5").2
            = [RemoteCall.insert calId
                { summary := su, startStr := st, endStr := et, colorId := none,
                  reminders := defaultReminders,
                  recurrence := some "RRULE:FREQ=WEEKLY;COUNT=5" }])
      ∧ ((add_recurring_event parse cl insertOk name su st et "1" "d"
              "2024-06-01" cnt).2
            = [RemoteCall.insert calId
                { summary := su, startStr := st, endStr := et, colorId := none,
                  reminders := defaultReminders,
                  recurrence := some "RRULE:FREQ=DAILY;UNTIL=20240601T000000Z" }]) := by
  intro parse cl insertOk name su st et choice cond ed cnt calId s e hcal hs he
    hlt
  refine ⟨?_, ?_, ?_, ?_, ?_⟩
  · rintro ⟨h1, h2, h3, h4⟩
    unfold add_recurring_event
    rw [hcal, hs, he]
    simp only []
    rw [if_neg (not_le.mpr hlt), dictFind_frequency_eq_none h1 h2 h3 h4]
  · intro hch hlen hdig
    obtain ⟨freq, hfind, hmem⟩ := frequency_of_choice hch
    rw [add_recurring_event_d_rule parse cl insertOk name su st et choice ed cnt
      calId freq s e hcal hs he hlt hfind]
    exact ⟨_, rfl, _, rfl, freq, removeDashes ed, hmem, Or.inl ⟨rfl, hlen, hdig⟩⟩
  · intro hch hdig hpos
    obtain ⟨freq, hfind, hmem⟩ := frequency_of_choice hch
    rw [add_recurring_event_n_rule parse cl insertOk name su st et choice ed cnt
      calId freq s e hcal hs he hlt hfind hdig]
    exact ⟨_, rfl, _, rfl, freq, cnt, hmem, Or.inr ⟨rfl, hdig, hpos⟩⟩
  · rw [add_recurring_event_n_rule parse cl insertOk name su st et "2" ed "5"
      calId "WEEKLY" s e hcal hs he hlt (by decide) (by decide)]
    rw [show ("RRULE:FREQ=" ++ "WEEKLY" ++ ";COUNT=" ++ "5" : String)
      = "RRULE:FREQ=WEEKLY;COUNT=5" from by decide]
  · rw [add_recurring_event_d_rule parse cl insertOk name su st et "1"
      "2024-06-01" cnt calId "DAILY" s e hcal hs he hlt (by decide)]
    rw [show ("RRULE:FREQ=" ++ "DAILY" ++ ";UNTIL="
        ++ removeDashes "2024-06-01" ++ "T000000Z" : String)
      = "RRULE:FREQ=DAILY;UNTIL=20240601T000000Z" from by decide]

/-- Witness for the amended C5: (WEEKLY, COUNT 5) emits
`RRULE:FREQ=WEEKLY;COUNT=5` verbatim on a concrete calendar. -/
theorem recurrence_rule_amended_witness :
    (add_recurring_event pFix clFix true "Work" "S" "A" "B" "2" "n" "" "5").2
      = [RemoteCall.insert "cal1"
          { summary := "S", startStr := "A", endStr := "B", colorId := none,
            reminders := defaultReminders,
            recurrence := some "RRULE:FREQ=WEEKLY;COUNT=5" }] :=
  (recurrence_rule_amended pFix clFix true "Work" "S" "A" "B" "2" "n" "" "5"
    "cal1" 0 1 (by decide) (by decide) (by decide) (by decide)).2.2.2.1

/-- Counterexample to C5 as stated: the end date input is not validated, so
termination input `soon` emits `RRULE:FREQ=DAILY;UNTIL=soonT000000Z`, which
does not conform to the specified grammar — yet the event is created. -/
theorem recurrence_rule_nonconforming_counterexample :
    (add_recurring_event pFix clFix true "Work" "S" "A" "B" "1" "d" "soon" "").2
      = [RemoteCall.insert "cal1"
          { summary := "S", startStr := "A", endStr := "B", colorId := none,
            reminders := defaultReminders,
            recurrence := some "RRULE:FREQ=DAILY;UNTIL=soonT000000Z" }]
    ∧ ¬ ConformsRuleGrammar "RRULE:FREQ=DAILY;UNTIL=soonT000000Z" := by
  constructor
  · decide
  · rintro ⟨freq, arg, hfreq, hcase⟩
    simp only [List.mem_cons, List.not_mem_nil, or_false] at hfreq
    rcases hfreq with rfl | rfl | rfl | rfl
    all_goals rcases hcase with ⟨heq, hlen, hdig⟩ | ⟨heq, hdig, hpos⟩
    · rw [show ("RRULE:FREQ=DAILY;UNTIL=soonT000000Z" : String)
          = "RRULE:FREQ=" ++ "DAILY" ++ ";UNTIL=" ++ "soon" ++ "T000000Z"
          from by decide] at heq
      have h1 := strAppend_right_cancel heq
      have h2 := strAppend_left_cancel h1
      rw [← h2] at hlen
      exact absurd hlen (by decide)
    · exact str_ne_of_take_ne _ _ _ (by decide) heq
    · rw [String.append_assoc ("RRULE:FREQ=" ++ "WEEKLY" ++ ";UNTIL=") arg
        "T000000Z"] at heq
      exact str_ne_of_take_ne _ _ _ (by decide) heq
    · exact str_ne_of_take_ne _ _ _ (by decide) heq
    · rw [String.append_assoc ("RRULE:FREQ=" ++ "MONTHLY" ++ ";UNTIL=") arg
        "T000000Z"] at heq
      exact str_ne_of_take_ne _ _ _ (by decide) heq
    · exact str_ne_of_take_ne _ _ _ (by decide) heq
    · rw [String.append_assoc ("RRULE:FREQ=" ++ "YEARLY" ++ ";UNTIL=") arg
        "T000000Z"] at heq
      exact str_ne_of_take_ne _ _ _ (by decide) heq
    · exact str_ne_of_take_ne _ _ _ (by decide) heq

end CalendarManager
